import Mathlib

/-!
Verification development for a multi-user todo application consisting of a
relational schema with row-level security (RLS) policies and an `updated_at`
trigger (SQL migration), and a client-side todo list controller
(`src/pages/Todos.tsx`).

Modelling conventions:
* `UUID` values (row ids and user ids) are modelled as `Nat`; the store assigns
  fresh row ids from a counter (`gen_random_uuid()` yields fresh ids).
* `TIMESTAMP WITH TIME ZONE` values are modelled as `Nat`; `now()` is passed to
  every server-side operation as an explicit `now : Nat` argument.
* SQL `NULL`-able values are `Option`s; an insert payload models a column that
  may be omitted or NULL as an `Option` field.
* RLS semantics follow PostgreSQL: `USING` clauses on SELECT/UPDATE/DELETE
  silently restrict the set of visible/affected rows (matching zero rows is not
  an error), while an INSERT whose proposed row fails the `WITH CHECK` clause
  raises an error. A column declared `NOT NULL` rejects NULL, and nothing else.
* The client talks to the store through a PostgREST-style interface: an
  update/delete statement that affects zero rows completes without error
  (no `.single()` modifier is used on those calls), so the controller cannot
  distinguish it from a successful mutation.
* Transport failures are modelled at the response level: each controller
  handler is split so that the part that reacts to the response is a pure
  function of the response, and an `err` response models any storage error.
-/

namespace TodoApp

/-- A row of `public.todos`:
`id UUID PRIMARY KEY`, `user_id UUID NOT NULL`, `title TEXT NOT NULL`,
`description TEXT`, `completed BOOLEAN NOT NULL`,
`created_at`/`updated_at TIMESTAMP WITH TIME ZONE NOT NULL`. -/
structure Todo where
  id : Nat
  user_id : Nat
  title : String
  description : Option String
  completed : Bool
  created_at : Nat
  updated_at : Nat
deriving DecidableEq, Repr

/-- The todos table plus the id generator state. -/
structure Store where
  rows : List Todo
  nextId : Nat
deriving DecidableEq, Repr

/-- Errors the storage layer can raise on an INSERT. -/
inductive DbError where
  | notNullViolation
  | rlsViolation
deriving DecidableEq, Repr

/-- RLS policy "Users can view their own todos": SELECT visible rows are those
with `auth.uid() = user_id`. -/
def rlsSelectVisible (s : Store) (caller : Nat) : List Todo :=
  s.rows.filter (fun r => r.user_id == caller)

/-- The controller's fetch query: `select('*').eq('user_id', uid)
.order('created_at', { ascending: false })`, evaluated on the rows the RLS
SELECT policy makes visible to `caller`. -/
def clientFetchData (s : Store) (caller uid : Nat) : List Todo :=
  List.insertionSort (fun a b => b.created_at ≤ a.created_at)
    ((rlsSelectVisible s caller).filter (fun r => r.user_id == uid))

/-- An INSERT payload for `public.todos`; every column lacking a value or set
to NULL is `none` (`id`, `created_at`, `updated_at` are always
server-assigned defaults). -/
structure InsertValues where
  title : Option String
  user_id : Option Nat
  completed : Option Bool
  description : Option String
deriving DecidableEq, Repr

/-- INSERT into `public.todos`: `NOT NULL` on `title` and `user_id`,
`completed` defaults to `false`, `id` is generated, `created_at` and
`updated_at` default to `now()`; the RLS policy "Users can create their own
todos" has `WITH CHECK (auth.uid() = user_id)` and raises an error on the
proposed row when the check fails. -/
def insertTodo (s : Store) (caller now : Nat) (v : InsertValues) :
    Except DbError (Todo × Store) :=
  match v.title, v.user_id with
  | some t, some u =>
      if u == caller then
        let row : Todo :=
          { id := s.nextId, user_id := u, title := t,
            description := v.description,
            completed := v.completed.getD false,
            created_at := now, updated_at := now }
        Except.ok (row, { rows := s.rows ++ [row], nextId := s.nextId + 1 })
      else Except.error DbError.rlsViolation
  | _, _ => Except.error DbError.notNullViolation

/-- An UPDATE's SET clause; `none` means the column is not mentioned.
`description` can be set to NULL, hence the nested `Option`. -/
structure UpdatePatch where
  title : Option String
  description : Option (Option String)
  completed : Option Bool
  updated_at : Option Nat
deriving DecidableEq, Repr

/-- Apply a SET clause to a row. -/
def applyPatch (p : UpdatePatch) (r : Todo) : Todo :=
  { r with
    title := p.title.getD r.title,
    description := p.description.getD r.description,
    completed := p.completed.getD r.completed,
    updated_at := p.updated_at.getD r.updated_at }

/-- `public.handle_updated_at()`: the BEFORE UPDATE trigger sets
`NEW.updated_at = now()` unconditionally. -/
def handle_updated_at (now : Nat) (r : Todo) : Todo :=
  { r with updated_at := now }

/-- The rows touched by the controller's update/delete statements: the RLS
`USING (auth.uid() = user_id)` policy conjoined with the statement's own
`.eq('id', id).eq('user_id', uid)` filters. -/
def updateMatches (caller id uid : Nat) (r : Todo) : Bool :=
  r.user_id == caller && (r.id == id && r.user_id == uid)

/-- UPDATE on `public.todos` scoped by id and user_id: RLS `USING` silently
restricts the affected rows; the trigger stamps `updated_at` after the SET
clause. Returns the affected row count and the new store; affecting zero rows
is not an error. -/
def runUpdate (s : Store) (caller now id uid : Nat) (p : UpdatePatch) :
    Nat × Store :=
  ((s.rows.filter (updateMatches caller id uid)).length,
   { s with rows := s.rows.map (fun r =>
       if updateMatches caller id uid r then
         handle_updated_at now (applyPatch p r)
       else r) })

/-- DELETE on `public.todos` scoped by id and user_id, RLS-restricted like
`runUpdate`; returns the affected row count and the new store. -/
def runDelete (s : Store) (caller id uid : Nat) : Nat × Store :=
  ((s.rows.filter (updateMatches caller id uid)).length,
   { s with rows := s.rows.filter (fun r => !(updateMatches caller id uid r)) })

/-- The row an id-scoped statement of `caller` would address, if any. -/
def findRow (s : Store) (caller id : Nat) : Option Todo :=
  s.rows.find? (updateMatches caller id caller)

/-- JavaScript's `String.prototype.trim()`: strip leading and trailing
whitespace (modelled over the string's character list so that it is
kernel-evaluable). -/
def jsTrim (s : String) : String :=
  String.mk
    (((s.data.dropWhile Char.isWhitespace).reverse.dropWhile
        Char.isWhitespace).reverse)

/-- A toast notification as raised by the controller. -/
structure Toast where
  title : String
  description : String
  destructive : Bool
deriving DecidableEq, Repr

/-- `toast({ title: "Error", description: d, variant: "destructive" })`. -/
def errorToast (d : String) : Toast :=
  { title := "Error", description := d, destructive := true }

/-- `toast({ title: "Success", description: d })`. -/
def successToast (d : String) : Toast :=
  { title := "Success", description := d, destructive := false }

/-- The controller's component state: `todos`, `newTodo`, `loading`,
`adding`. -/
structure ClientState where
  todos : List Todo
  newTodo : String
  loading : Bool
  adding : Bool
deriving DecidableEq, Repr

/-- Outcome of the fetch query as seen by the controller: either
`{ data, error: null }` where `data` may be null, or `{ error }`. -/
inductive FetchResponse where
  | ok (data : Option (List Todo))
  | err
deriving DecidableEq, Repr

/-- `fetchTodos`, from the response on: on error, toast and leave `todos`
alone; otherwise `setTodos(data || [])`; `finally` clears `loading`. -/
def handleFetchResponse (st : ClientState) (resp : FetchResponse) :
    ClientState × List Toast :=
  match resp with
  | FetchResponse.err =>
      ({ st with loading := false }, [errorToast "Failed to fetch todos"])
  | FetchResponse.ok data =>
      ({ st with todos := data.getD [], loading := false }, [])

/-- `fetchTodos` run to completion against the store (transport succeeding). -/
def fetchTodos (st : ClientState) (s : Store) (uid : Nat) :
    ClientState × List Toast :=
  handleFetchResponse st (FetchResponse.ok (some (clientFetchData s uid uid)))

/-- Outcome of the insert (`.select().single()`) as seen by `addTodo`. -/
inductive AddResponse where
  | ok (data : Todo)
  | err
deriving DecidableEq, Repr

/-- `addTodo`, from the response on: on error, toast and change nothing else;
on success `setTodos([data, ...todos])`, clear the input, toast success;
`finally` clears `adding`. -/
def handleAddResponse (st : ClientState) (resp : AddResponse) :
    ClientState × List Toast :=
  match resp with
  | AddResponse.err =>
      ({ st with adding := false }, [errorToast "Failed to add todo"])
  | AddResponse.ok data =>
      ({ st with todos := data :: st.todos, newTodo := "", adding := false },
       [successToast "Todo added successfully!"])

/-- Everything `addTodo` produced: final component state, final store, whether
an insert request was sent at all, and the toasts raised. -/
structure AddOutcome where
  state : ClientState
  store : Store
  sent : Bool
  toasts : List Toast
deriving DecidableEq, Repr

/-- `addTodo` run to completion against the store: if `newTodo.trim()` is
empty, toast an error and send nothing; otherwise insert
`{ title: newTodo.trim(), user_id: uid, completed: false }` and handle the
response. -/
def addTodo (st : ClientState) (s : Store) (uid now : Nat) : AddOutcome :=
  if jsTrim st.newTodo == "" then
    { state := st, store := s, sent := false,
      toasts := [errorToast "Please enter a todo title"] }
  else
    let st1 := { st with adding := true }
    match insertTodo s uid now
        { title := some (jsTrim st.newTodo), user_id := some uid,
          completed := some false, description := none } with
    | Except.ok (row, s2) =>
        let h := handleAddResponse st1 (AddResponse.ok row)
        { state := h.1, store := s2, sent := true, toasts := h.2 }
    | Except.error _ =>
        let h := handleAddResponse st1 AddResponse.err
        { state := h.1, store := s, sent := true, toasts := h.2 }

/-- Outcome of an update/delete statement as seen by the controller: only
`error` is inspected (the affected rows are not returned). -/
inductive MutationResponse where
  | ok
  | err
deriving DecidableEq, Repr

/-- The success-branch local mutation of `toggleTodo`:
`todos.map(todo => todo.id === id ? { ...todo, completed: !completed } : todo)`. -/
def localToggle (todos : List Todo) (id : Nat) (completed : Bool) :
    List Todo :=
  todos.map (fun todo =>
    if todo.id == id then { todo with completed := !completed } else todo)

/-- `toggleTodo`, from the response on: on error, toast and leave the list
alone; on success apply the local flip. -/
def handleToggleResponse (st : ClientState) (id : Nat) (completed : Bool)
    (resp : MutationResponse) : ClientState × List Toast :=
  match resp with
  | MutationResponse.err => (st, [errorToast "Failed to update todo"])
  | MutationResponse.ok =>
      ({ st with todos := localToggle st.todos id completed }, [])

/-- Everything a toggle/delete run produced: final component state, final
store, how many rows the statement affected, whether the store reported an
error, and the toasts raised. -/
structure MutationOutcome where
  state : ClientState
  store : Store
  affected : Nat
  errored : Bool
  toasts : List Toast
deriving DecidableEq, Repr

/-- `toggleTodo(id, completed)` run to completion against the store:
`update({ completed: !completed }).eq('id', id).eq('user_id', uid)`; the
statement never errors (zero affected rows included), so the success branch
runs. -/
def toggleTodo (st : ClientState) (s : Store) (uid now id : Nat)
    (completed : Bool) : MutationOutcome :=
  let u := runUpdate s uid now id uid
    { title := none, description := none,
      completed := some (!completed), updated_at := none }
  let h := handleToggleResponse st id completed MutationResponse.ok
  { state := h.1, store := u.2, affected := u.1, errored := false,
    toasts := h.2 }

/-- `deleteTodo`, from the response on: on error, toast and leave the list
alone; on success `setTodos(todos.filter(todo => todo.id !== id))` and toast
success. -/
def handleDeleteResponse (st : ClientState) (id : Nat)
    (resp : MutationResponse) : ClientState × List Toast :=
  match resp with
  | MutationResponse.err => (st, [errorToast "Failed to delete todo"])
  | MutationResponse.ok =>
      ({ st with todos := st.todos.filter (fun todo => todo.id != id) },
       [successToast "Todo deleted successfully!"])

/-- `deleteTodo(id)` run to completion against the store:
`delete().eq('id', id).eq('user_id', uid)`; the statement never errors (zero
affected rows included), so the success branch runs. -/
def deleteTodo (st : ClientState) (s : Store) (uid id : Nat) :
    MutationOutcome :=
  let d := runDelete s uid id uid
  let h := handleDeleteResponse st id MutationResponse.ok
  { state := h.1, store := d.2, affected := d.1, errored := false,
    toasts := h.2 }

/-! ## Theorems -/

/-- C3: the controller's local todo list is mutated only on confirmed success:
for each of fetch, add, toggle and delete, when the storage call returns an
error the handler leaves `todos` exactly as it was. -/
theorem local_list_unchanged_on_error :
    (∀ st : ClientState,
      (handleFetchResponse st FetchResponse.err).1.todos = st.todos) ∧
    (∀ st : ClientState,
      (handleAddResponse st AddResponse.err).1.todos = st.todos) ∧
    (∀ (st : ClientState) (id : Nat) (c : Bool),
      (handleToggleResponse st id c MutationResponse.err).1.todos = st.todos) ∧
    (∀ (st : ClientState) (id : Nat),
      (handleDeleteResponse st id MutationResponse.err).1.todos = st.todos) :=
  ⟨fun _ => rfl, fun _ => rfl, fun _ _ _ => rfl, fun _ _ => rfl⟩

/-- C10: after every completed fetch the local list is a genuine list: a
success response with null/absent data sets it to the empty list, a success
response with data installs that data, and an error response leaves the list
at its previous value. -/
theorem fetch_list_never_null :
    (∀ st : ClientState,
      (handleFetchResponse st (FetchResponse.ok none)).1.todos = []) ∧
    (∀ (st : ClientState) (l : List Todo),
      (handleFetchResponse st (FetchResponse.ok (some l))).1.todos = l) ∧
    (∀ st : ClientState,
      (handleFetchResponse st FetchResponse.err).1.todos = st.todos) :=
  ⟨fun _ => rfl, fun _ _ => rfl, fun _ => rfl⟩

/-- C8: an input whose trimmed value is empty is rejected client-side: no
insert is sent, the store is untouched, the component state (list and input
included) is exactly the old one, and an error toast is raised. -/
theorem empty_trim_add_rejected
    (st : ClientState) (s : Store) (uid now : Nat)
    (h : jsTrim st.newTodo = "") :
    (addTodo st s uid now).sent = false ∧
    (addTodo st s uid now).store = s ∧
    (addTodo st s uid now).state = st ∧
    (addTodo st s uid now).toasts = [errorToast "Please enter a todo title"] := by
  have hb : (jsTrim st.newTodo == "") = true := by simp [h]
  simp [addTodo, hb]

/-- Witness for C8 at a concrete whitespace-only input. -/
theorem empty_trim_add_rejected_witness :
    (addTodo { todos := [], newTodo := "  ", loading := false, adding := false }
        { rows := [], nextId := 0 } 3 9).sent = false :=
  (empty_trim_add_rejected _ _ 3 9 (by decide)).1

/-- C2 counterexample: the storage layer accepts an empty-string title. The
claim says a create whose title is the empty string fails with a validation
error and inserts no row; here an insert with `title = ''` (and matching
owner) succeeds and inserts a row, because the schema only declares
`title TEXT NOT NULL` and `''` is not NULL. -/
theorem storage_accepts_empty_title_cx :
    insertTodo { rows := [], nextId := 0 } 7 3
        { title := some "", user_id := some 7, completed := some false,
          description := none }
      = Except.ok
          ({ id := 0, user_id := 7, title := "", description := none,
             completed := false, created_at := 3, updated_at := 3 },
           { rows := [{ id := 0, user_id := 7, title := "",
                        description := none, completed := false,
                        created_at := 3, updated_at := 3 }],
             nextId := 1 }) := rfl

/-- C2 amended: at the storage layer, create fails (with a NOT NULL
violation, inserting nothing) whenever `title` is NULL, but an empty-string
title is accepted and inserted; the empty-title rejection happens
client-side, where an empty trimmed input sends no insert at all and leaves
the store unchanged. -/
theorem storage_title_not_null
    (s : Store) (caller now : Nat) :
    (∀ v : InsertValues, v.title = none →
        insertTodo s caller now v = Except.error DbError.notNullViolation) ∧
    (∃ row s2,
        insertTodo s caller now
            { title := some "", user_id := some caller,
              completed := some false, description := none }
          = Except.ok (row, s2) ∧
        row.title = "" ∧ s2.rows = s.rows ++ [row]) ∧
    (∀ (st : ClientState) (uid now2 : Nat), jsTrim st.newTodo = "" →
        (addTodo st s uid now2).sent = false ∧
        (addTodo st s uid now2).store = s) := by
  refine ⟨fun v hv => ?_, ?_, fun st uid now2 h => ?_⟩
  · obtain ⟨t, u, c, d⟩ := v
    cases hv
    cases u <;> rfl
  · have hins : insertTodo s caller now
        { title := some "", user_id := some caller,
          completed := some false, description := none }
      = Except.ok
          ({ id := s.nextId, user_id := caller, title := "",
             description := none, completed := false,
             created_at := now, updated_at := now },
           { rows := s.rows ++
               [{ id := s.nextId, user_id := caller, title := "",
                  description := none, completed := false,
                  created_at := now, updated_at := now }],
             nextId := s.nextId + 1 }) := by
      simp [insertTodo]
    exact ⟨_, _, hins, rfl, rfl⟩
  · have hb : (jsTrim st.newTodo == "") = true := by simp [h]
    simp [addTodo, hb]

/-- Witness for the amended C2 at a concrete NULL-title insert. -/
theorem storage_title_not_null_witness :
    insertTodo { rows := [], nextId := 4 } 2 5
        { title := none, user_id := some 2, completed := none,
          description := none }
      = Except.error DbError.notNullViolation :=
  (storage_title_not_null { rows := [], nextId := 4 } 2 5).1 _ rfl

/-- C4 counterexample: a delete whose target id is gone from the server is
reported to the user as a success, and the local mutation is applied. The
claim says such an operation reports an error and applies no local mutation;
here the statement affects zero rows, the store reports no error, the item
is removed from the local list, and a success toast is raised. -/
theorem stale_delete_reports_success_cx :
    (deleteTodo
        { todos := [{ id := 1, user_id := 4, title := "ghost",
                      description := none, completed := false,
                      created_at := 0, updated_at := 0 }],
          newTodo := "", loading := false, adding := false }
        { rows := [], nextId := 2 } 4 1).affected = 0 ∧
    (deleteTodo
        { todos := [{ id := 1, user_id := 4, title := "ghost",
                      description := none, completed := false,
                      created_at := 0, updated_at := 0 }],
          newTodo := "", loading := false, adding := false }
        { rows := [], nextId := 2 } 4 1).errored = false ∧
    (deleteTodo
        { todos := [{ id := 1, user_id := 4, title := "ghost",
                      description := none, completed := false,
                      created_at := 0, updated_at := 0 }],
          newTodo := "", loading := false, adding := false }
        { rows := [], nextId := 2 } 4 1).state.todos = [] ∧
    (deleteTodo
        { todos := [{ id := 1, user_id := 4, title := "ghost",
                      description := none, completed := false,
                      created_at := 0, updated_at := 0 }],
          newTodo := "", loading := false, adding := false }
        { rows := [], nextId := 2 } 4 1).toasts
      = [successToast "Todo deleted successfully!"] :=
  ⟨rfl, rfl, rfl, rfl⟩

/-- C4 amended: an update/delete whose target id no longer exists on the
server affects zero rows and the store reports no error, so the controller
runs its success branch: a toggle flips the local copy all the same, a
delete removes the item from the local list and raises a success toast; no
error is surfaced to the user and the server state is unchanged. -/
theorem stale_mutation_silent_success
    (st : ClientState) (s : Store) (uid now id : Nat) (c : Bool)
    (h : ∀ r ∈ s.rows, r.id ≠ id) :
    (toggleTodo st s uid now id c).affected = 0 ∧
    (toggleTodo st s uid now id c).errored = false ∧
    (toggleTodo st s uid now id c).store = s ∧
    (toggleTodo st s uid now id c).state.todos = localToggle st.todos id c ∧
    (deleteTodo st s uid id).affected = 0 ∧
    (deleteTodo st s uid id).errored = false ∧
    (deleteTodo st s uid id).store = s ∧
    (deleteTodo st s uid id).state.todos
      = st.todos.filter (fun t => t.id != id) ∧
    (deleteTodo st s uid id).toasts
      = [successToast "Todo deleted successfully!"] := by
  have hm : ∀ r ∈ s.rows, updateMatches uid id uid r = false := by
    intro r hr
    have := h r hr
    simp [updateMatches, this]
  have hfil : s.rows.filter (updateMatches uid id uid) = [] := by
    rw [List.filter_eq_nil_iff]
    intro r hr
    simp [hm r hr]
  have hmap : (s.rows.map (fun r =>
      if updateMatches uid id uid r then
        handle_updated_at now (applyPatch
          { title := none, description := none,
            completed := some (!c), updated_at := none } r)
      else r)) = s.rows := by
    conv_rhs => rw [← List.map_id s.rows]
    apply List.map_congr_left
    intro r hr
    simp [hm r hr]
  have hkeep : (s.rows.filter (fun r => !(updateMatches uid id uid r)))
      = s.rows := by
    rw [List.filter_eq_self]
    intro r hr
    simp [hm r hr]
  refine ⟨?_, rfl, ?_, rfl, ?_, rfl, ?_, rfl, rfl⟩
  · simp [toggleTodo, runUpdate, hfil]
  · simp [toggleTodo, runUpdate, hmap]
  · simp [deleteTodo, runDelete, hfil]
  · simp [deleteTodo, runDelete, hkeep]

/-- Witness for the amended C4 at a concrete stale id. -/
theorem stale_mutation_silent_success_witness :
    (deleteTodo
        { todos := [], newTodo := "", loading := true, adding := false }
        { rows := [], nextId := 0 } 9 5).errored = false :=
  (stale_mutation_silent_success
      { todos := [], newTodo := "", loading := true, adding := false }
      { rows := [], nextId := 0 } 9 0 5 true
      (by decide)).2.2.2.2.2.1

/-- C5: a successful add with non-empty trimmed text prepends the row the
server returned (the very row the server persisted, `completed = false`,
timestamps server-assigned) to the head of the local list, leaves the rest
of the list unchanged and clears the input; an add that fails leaves the
input untouched. -/
theorem add_success_prepends_server_row
    (st : ClientState) (s : Store) (uid now : Nat)
    (h : jsTrim st.newTodo ≠ "") :
    ∃ row s2,
      insertTodo s uid now
          { title := some (jsTrim st.newTodo), user_id := some uid,
            completed := some false, description := none }
        = Except.ok (row, s2) ∧
      (addTodo st s uid now).state.todos = row :: st.todos ∧
      (addTodo st s uid now).state.newTodo = "" ∧
      (addTodo st s uid now).store = s2 ∧
      row.completed = false ∧ row.created_at = now ∧ row.updated_at = now ∧
      s2.rows = s.rows ++ [row] ∧
      (∀ st2 : ClientState,
        (handleAddResponse st2 AddResponse.err).1.newTodo = st2.newTodo) := by
  have hb : (jsTrim st.newTodo == "") = false := by
    simp [h]
  have hins : insertTodo s uid now
      { title := some (jsTrim st.newTodo), user_id := some uid,
        completed := some false, description := none }
    = Except.ok
        ({ id := s.nextId, user_id := uid, title := jsTrim st.newTodo,
           description := none, completed := false,
           created_at := now, updated_at := now },
         { rows := s.rows ++
             [{ id := s.nextId, user_id := uid, title := jsTrim st.newTodo,
                description := none, completed := false,
                created_at := now, updated_at := now }],
           nextId := s.nextId + 1 }) := by
    simp [insertTodo]
  refine ⟨_, _, hins, ?_, ?_, ?_, rfl, rfl, rfl, rfl, fun st2 => rfl⟩ <;>
    simp [addTodo, hb, hins, handleAddResponse]

/-- Witness for C5 at a concrete input with surrounding whitespace. -/
theorem add_success_prepends_server_row_witness :
    (addTodo
        { todos := [], newTodo := " buy milk ", loading := false,
          adding := false }
        { rows := [], nextId := 0 } 3 7).state.newTodo = "" := by
  obtain ⟨row, s2, -, -, h3, -⟩ :=
    add_success_prepends_server_row
      { todos := [], newTodo := " buy milk ", loading := false,
        adding := false }
      { rows := [], nextId := 0 } 3 7 (by decide)
  exact h3

/-- C7: on every update the trigger stamps `updated_at` with the server's
current time, whatever the SET clause said (including a client-supplied
`updated_at`); untouched rows are unchanged, so `updated_at` never decreases
while the server clock does not run backwards, and it changes on every
successful mutation executed at a strictly later time. -/
theorem updated_at_server_stamped
    (s : Store) (caller now id uid : Nat) (p : UpdatePatch) :
    ∀ (i : Nat) (r r' : Todo), s.rows[i]? = some r →
      (runUpdate s caller now id uid p).2.rows[i]? = some r' →
      (updateMatches caller id uid r = true → r'.updated_at = now) ∧
      (updateMatches caller id uid r = false → r' = r) ∧
      (r.updated_at ≤ now → r.updated_at ≤ r'.updated_at) ∧
      (updateMatches caller id uid r = true → r.updated_at < now →
        r.updated_at < r'.updated_at ∧ r'.updated_at ≠ r.updated_at) := by
  intro i r r' h1 h2
  have h2' : r' = (if updateMatches caller id uid r then
      handle_updated_at now (applyPatch p r) else r) := by
    rw [runUpdate] at h2
    simp only [List.getElem?_map, h1, Option.map_some] at h2
    exact (Option.some_injective _ h2).symm
  cases hm : updateMatches caller id uid r with
  | false =>
      have h2'' : r' = r := by simpa [hm] using h2'
      refine ⟨fun hc => by simp [hm] at hc, fun _ => h2'', ?_,
        fun hc => by simp [hm] at hc⟩
      intro _
      rw [h2'']
  | true =>
      have h2'' : r' = handle_updated_at now (applyPatch p r) := by
        simpa [hm] using h2'
      have hup : r'.updated_at = now := by
        rw [h2'']
        rfl
      refine ⟨fun _ => hup, fun hc => by simp [hm] at hc, ?_, ?_⟩
      · intro hle
        rw [hup]
        exact hle
      · intro _ hlt
        rw [hup]
        exact ⟨hlt, (Nat.ne_of_lt hlt).symm⟩

/-- Witness for C7: an update carrying a client-supplied `updated_at` is
overridden by the trigger at a concrete row. -/
theorem updated_at_server_stamped_witness :
    ({ id := 1, user_id := 2, title := "x", description := none,
       completed := false, created_at := 0, updated_at := 99 } : Todo).updated_at
      = 99 ∧
    (runUpdate
        { rows := [{ id := 1, user_id := 2, title := "x", description := none,
                     completed := false, created_at := 0, updated_at := 3 }],
          nextId := 2 } 2 8 1 2
        { title := none, description := none, completed := some true,
          updated_at := some 99 }).2.rows[0]?.map Todo.updated_at = some 8 := by
  constructor
  · rfl
  · have h := updated_at_server_stamped
      { rows := [{ id := 1, user_id := 2, title := "x", description := none,
                   completed := false, created_at := 0, updated_at := 3 }],
        nextId := 2 } 2 8 1 2
      { title := none, description := none, completed := some true,
        updated_at := some 99 } 0
      { id := 1, user_id := 2, title := "x", description := none,
        completed := false, created_at := 0, updated_at := 3 }
      { id := 1, user_id := 2, title := "x", description := none,
        completed := true, created_at := 0, updated_at := 8 } rfl rfl
    rw [show (runUpdate
        { rows := [{ id := 1, user_id := 2, title := "x", description := none,
                     completed := false, created_at := 0, updated_at := 3 }],
          nextId := 2 } 2 8 1 2
        { title := none, description := none, completed := some true,
          updated_at := some 99 }).2.rows[0]?
      = some { id := 1, user_id := 2, title := "x", description := none,
               completed := true, created_at := 0, updated_at := 8 } from rfl]
    exact congrArg some (h.1 rfl)

/-- C9: the success-branch local mutation of a toggle is frame-exact: the
list's length and order are preserved, every element keeps its id, title,
description, timestamps and owner, an element whose id misses the target is
entirely unchanged, the element whose id matches only has its completed flag
set, and (ids being distinct) at most one position of the list changes. -/
theorem local_toggle_frame
    (todos : List Todo) (id : Nat) (completed : Bool)
    (hnd : (todos.map Todo.id).Nodup) :
    (localToggle todos id completed).length = todos.length ∧
    (∀ (i : Nat) (r r' : Todo), todos[i]? = some r →
        (localToggle todos id completed)[i]? = some r' →
        r'.id = r.id ∧ r'.title = r.title ∧ r'.description = r.description ∧
        r'.created_at = r.created_at ∧ r'.updated_at = r.updated_at ∧
        r'.user_id = r.user_id ∧
        (r.id ≠ id → r' = r) ∧ (r.id = id → r'.completed = !completed)) ∧
    (∀ (i j : Nat) (ri rj ri' rj' : Todo),
        todos[i]? = some ri → todos[j]? = some rj →
        (localToggle todos id completed)[i]? = some ri' →
        (localToggle todos id completed)[j]? = some rj' →
        ri' ≠ ri → rj' ≠ rj → i = j) := by
  have hval : ∀ (k : Nat) (rk rk' : Todo), todos[k]? = some rk →
      (localToggle todos id completed)[k]? = some rk' →
      rk' = (if rk.id == id then { rk with completed := !completed }
             else rk) := by
    intro k rk rk' h1 h2
    rw [localToggle] at h2
    simp only [List.getElem?_map, h1, Option.map_some', Option.some.injEq]
      at h2
    exact h2.symm
  refine ⟨by simp [localToggle], ?_, ?_⟩
  · intro i r r' h1 h2
    have h2' := hval i r r' h1 h2
    cases hid : (r.id == id) with
    | false =>
        have hr : r' = r := by simpa [hid] using h2'
        have hne : ¬(r.id = id) := by simpa using hid
        rw [hr]
        exact ⟨rfl, rfl, rfl, rfl, rfl, rfl, fun _ => rfl,
          fun hc => absurd hc hne⟩
    | true =>
        have hr : r' = { r with completed := !completed } := by
          simpa [hid] using h2'
        have hii : r.id = id := by simpa using hid
        rw [hr]
        exact ⟨rfl, rfl, rfl, rfl, rfl, rfl,
          fun hne => absurd hii hne, fun _ => rfl⟩
  · intro i j ri rj ri' rj' hi hj hi' hj' hne_i hne_j
    have hchanged : ∀ (k : Nat) (rk rk' : Todo), todos[k]? = some rk →
        (localToggle todos id completed)[k]? = some rk' →
        rk' ≠ rk → rk.id = id := by
      intro k rk rk' h1 h2 hne
      have h2' := hval k rk rk' h1 h2
      cases hid : (rk.id == id) with
      | false => exact absurd (by simpa [hid] using h2') hne
      | true => simpa using hid
    have hid_i := hchanged i ri ri' hi hi' hne_i
    have hid_j := hchanged j rj rj' hj hj' hne_j
    have hilt : i < todos.length := by
      by_contra hcon
      rw [List.getElem?_eq_none (Nat.le_of_not_lt hcon)] at hi
      exact Option.noConfusion hi
    have hmi : (todos.map Todo.id)[i]? = some id := by
      rw [List.getElem?_map, hi, Option.map_some', hid_i]
    have hmj : (todos.map Todo.id)[j]? = some id := by
      rw [List.getElem?_map, hj, Option.map_some', hid_j]
    exact List.getElem?_inj (by simpa using hilt) hnd (hmi.trans hmj.symm)

/-- Witness for C9 at a concrete two-element list with distinct ids. -/
theorem local_toggle_frame_witness :
    (localToggle
        [{ id := 1, user_id := 2, title := "a", description := none,
           completed := false, created_at := 0, updated_at := 0 },
         { id := 2, user_id := 2, title := "b", description := some "d",
           completed := true, created_at := 1, updated_at := 1 }]
        2 true).length = 2 :=
  (local_toggle_frame
      [{ id := 1, user_id := 2, title := "a", description := none,
         completed := false, created_at := 0, updated_at := 0 },
       { id := 2, user_id := 2, title := "b", description := some "d",
         completed := true, created_at := 1, updated_at := 1 }]
      2 true (by decide)).1

/-- A row returned by a successful insert is owned by the caller: the
`WITH CHECK (auth.uid() = user_id)` policy admits no other owner. -/
theorem insertTodo_ok_user_id
    (s s2 : Store) (caller now : Nat) (v : InsertValues) (row : Todo)
    (h : insertTodo s caller now v = Except.ok (row, s2)) :
    row.user_id = caller := by
  obtain ⟨t, u, c, d⟩ := v
  cases t with
  | none => exact absurd h (by simp [insertTodo])
  | some t0 =>
    cases u with
    | none => exact absurd h (by simp [insertTodo])
    | some u0 =>
      rw [insertTodo] at h
      by_cases hu : (u0 == caller) = true
      · simp only [hu, if_true, Except.ok.injEq, Prod.mk.injEq] at h
        rw [← h.1]
        exact eq_of_beq hu
      · simp only [hu, if_false] at h
        exact absurd h (by simp)

/-- C1: per-user isolation at the storage boundary, for all users A ≠ B: a
row created by A is never in B's fetch results; an insert by B proposing
owner A is rejected; B's updates and deletes leave every row not owned by B
untouched and in place; and an update or delete by B whose target id is
owned by someone else affects zero rows. -/
theorem rls_per_user_isolation (A B : Nat) (hAB : A ≠ B) :
    (∀ (s s2 t : Store) (now : Nat) (v : InsertValues) (row : Todo),
        insertTodo s A now v = Except.ok (row, s2) →
        row ∉ clientFetchData t B B) ∧
    (∀ (s : Store) (now : Nat) (v : InsertValues),
        v.user_id = some A → (insertTodo s B now v).isOk = false) ∧
    (∀ (s : Store) (now id uid : Nat) (p : UpdatePatch) (r : Todo),
        r ∈ s.rows → r.user_id ≠ B →
        r ∈ (runUpdate s B now id uid p).2.rows) ∧
    (∀ (s : Store) (id uid : Nat) (r : Todo),
        r ∈ s.rows → r.user_id ≠ B →
        r ∈ (runDelete s B id uid).2.rows) ∧
    (∀ (s : Store) (now id uid : Nat) (p : UpdatePatch),
        (∀ r ∈ s.rows, r.id = id → r.user_id ≠ B) →
        (runUpdate s B now id uid p).1 = 0) ∧
    (∀ (s : Store) (id uid : Nat),
        (∀ r ∈ s.rows, r.id = id → r.user_id ≠ B) →
        (runDelete s B id uid).1 = 0) := by
  have hfilter : ∀ (s : Store) (id uid : Nat),
      (∀ r ∈ s.rows, r.id = id → r.user_id ≠ B) →
      s.rows.filter (updateMatches B id uid) = [] := by
    intro s id uid h
    rw [List.filter_eq_nil_iff]
    intro r hr hmatch
    simp only [updateMatches, Bool.and_eq_true, beq_iff_eq] at hmatch
    exact h r hr hmatch.2.1 hmatch.1
  refine ⟨?_, ?_, ?_, ?_, ?_, ?_⟩
  · intro s s2 t now v row hins hmem
    have huid := insertTodo_ok_user_id s s2 A now v row hins
    rw [clientFetchData, List.mem_insertionSort] at hmem
    have hB := (List.mem_filter.mp hmem).2
    rw [huid] at hB
    exact hAB (by simpa using hB)
  · intro s now v hv
    obtain ⟨t, u, c, d⟩ := v
    have hu : u = some A := hv
    subst hu
    cases t with
    | none => rfl
    | some t0 =>
        have hA : (A == B) = false := by simpa using hAB
        simp [insertTodo, hA, Except.isOk, Except.toBool]
  · intro s now id uid p r hr hneq
    have hm : updateMatches B id uid r = false := by
      simp [updateMatches, hneq]
    exact List.mem_map.mpr ⟨r, hr, by simp [hm]⟩
  · intro s id uid r hr hneq
    have hm : updateMatches B id uid r = false := by
      simp [updateMatches, hneq]
    exact List.mem_filter.mpr ⟨hr, by simp [hm]⟩
  · intro s now id uid p h
    simp [runUpdate, hfilter s id uid h]
  · intro s id uid h
    simp [runDelete, hfilter s id uid h]

/-- Witness for C1: a concrete insert by user 1 proposing owner 0 is
rejected. -/
theorem rls_per_user_isolation_witness :
    (insertTodo { rows := [], nextId := 0 } 1 5
        { title := some "x", user_id := some 0, completed := none,
          description := none }).isOk = false :=
  (rls_per_user_isolation 0 1 (by decide)).2.1
    { rows := [], nextId := 0 } 5
    { title := some "x", user_id := some 0, completed := none,
      description := none } rfl

/-- Updating exactly the rows a predicate selects commutes with looking one
up, provided the update preserves the predicate. -/
theorem find_if_map {α : Type} (p : α → Bool) (f : α → α)
    (hf : ∀ x, p (f x) = p x) :
    ∀ l : List α,
      (l.map (fun x => if p x then f x else x)).find? p
        = (l.find? p).map f := by
  intro l
  induction l with
  | nil => rfl
  | cons a t ih =>
      cases hpa : p a with
      | false => simp [List.find?_cons, hpa, hf, ih]
      | true => simp [List.find?_cons, hpa, hf]

/-- C6: toggling a row twice in succession (the second toggle flipping the
flag the first one produced) restores its completed flag; each successful
toggle stamps `updated_at` with the server time of that toggle, hence with a
strictly later timestamp whenever the server clock advanced. -/
theorem toggle_twice_restores_completed
    (st1 st2 : ClientState) (s : Store) (uid t1 t2 id : Nat) (r : Todo)
    (hfind : findRow s uid id = some r) :
    ∃ r1 r2,
      findRow (toggleTodo st1 s uid t1 id r.completed).store uid id
        = some r1 ∧
      findRow (toggleTodo st2 (toggleTodo st1 s uid t1 id r.completed).store
          uid t2 id r1.completed).store uid id = some r2 ∧
      r1.completed = !r.completed ∧
      r2.completed = r.completed ∧
      r1.updated_at = t1 ∧ r2.updated_at = t2 ∧
      (r.updated_at < t1 → r.updated_at < r1.updated_at) ∧
      (t1 < t2 → r1.updated_at < r2.updated_at) := by
  have key : ∀ (tn : Nat) (q : UpdatePatch) (s' : Store) (r' : Todo),
      findRow s' uid id = some r' →
      findRow (runUpdate s' uid tn id uid q).2 uid id
        = some (handle_updated_at tn (applyPatch q r')) := by
    intro tn q s' r' hf'
    show (s'.rows.map _).find? _ = _
    rw [find_if_map (updateMatches uid id uid)
        (fun x => handle_updated_at tn (applyPatch q x)) (fun x => rfl)]
    rw [findRow] at hf'
    rw [hf']
    rfl
  have h1 : findRow (toggleTodo st1 s uid t1 id r.completed).store uid id
      = some { r with completed := !r.completed, updated_at := t1 } :=
    key t1
      { title := none, description := none,
        completed := some (!r.completed), updated_at := none } s r hfind
  have h2 : findRow (toggleTodo st2
        (toggleTodo st1 s uid t1 id r.completed).store
        uid t2 id (!r.completed)).store uid id
      = some { r with completed := !(!r.completed), updated_at := t2 } :=
    key t2
      { title := none, description := none,
        completed := some (!(!r.completed)), updated_at := none }
      (toggleTodo st1 s uid t1 id r.completed).store
      { r with completed := !r.completed, updated_at := t1 } h1
  refine ⟨{ r with completed := !r.completed, updated_at := t1 },
          { r with completed := !(!r.completed), updated_at := t2 },
          h1, h2, rfl, by simp, rfl, rfl, fun h => h, fun h => h⟩

/-- Witness for C6 at a concrete one-row store. -/
theorem toggle_twice_restores_completed_witness :
    ∃ r1 r2,
      findRow (toggleTodo
          { todos := [], newTodo := "", loading := false, adding := false }
          { rows := [{ id := 1, user_id := 2, title := "w",
                       description := none, completed := false,
                       created_at := 0, updated_at := 0 }],
            nextId := 2 } 2 5 1 false).store 2 1 = some r1 ∧
      findRow (toggleTodo
          { todos := [], newTodo := "", loading := false, adding := false }
          (toggleTodo
            { todos := [], newTodo := "", loading := false, adding := false }
            { rows := [{ id := 1, user_id := 2, title := "w",
                         description := none, completed := false,
                         created_at := 0, updated_at := 0 }],
              nextId := 2 } 2 5 1 false).store 2 9 1 r1.completed).store 2 1
        = some r2 ∧
      r1.completed = !false ∧
      r2.completed = false ∧
      r1.updated_at = 5 ∧ r2.updated_at = 9 ∧
      (0 < 5 → (0 : Nat) < r1.updated_at) ∧
      (5 < 9 → r1.updated_at < r2.updated_at) :=
  toggle_twice_restores_completed
    { todos := [], newTodo := "", loading := false, adding := false }
    { todos := [], newTodo := "", loading := false, adding := false }
    { rows := [{ id := 1, user_id := 2, title := "w", description := none,
                 completed := false, created_at := 0, updated_at := 0 }],
      nextId := 2 } 2 5 9 1
    { id := 1, user_id := 2, title := "w", description := none,
      completed := false, created_at := 0, updated_at := 0 } rfl

end TodoApp
